import Mathlib

/-!
Shallow embedding of the Extractify document-processing pipeline
(`pipeline.py`, `llm_service.py`, `ocr_service.py`, `config.py`).

Text is modelled as `List Char` (Python strings indexed by characters,
`len`, slicing `[:n]`).  The external collaborators (the OCR provider,
the LLM provider, the pydantic output parser) are parameters of the
embedding: an `LLMEnv` / `PipelineEnv` record supplies their behaviour,
and the theorems quantify over every such behaviour.  Exceptions are
modelled with `Except` / explicit error values; a Python function that
catches an exception and returns a value becomes a total Lean function.
-/

namespace Extractify

/-- Python default whitespace, as stripped by `str.strip()` (the ASCII
whitespace characters; `strip` with no argument removes exactly these
plus some unicode space characters that never appear in this code base). -/
def isPyWhitespace (c : Char) : Bool :=
  c = ' ' || c = '\t' || c = '\n' || c = '\x0d' || c = '\x0b' || c = '\x0c'

/-- Python `not s.strip()`: true iff the string is empty or consists
entirely of whitespace. -/
def isBlank (s : List Char) : Bool :=
  s.all isPyWhitespace

/-- Keys of `LLMService.prompts` (and of `_get_model_class`'s `model_map`)
in `llm_service.py`. -/
def knownDocumentTypes : List String :=
  ["driving_license", "shop_receipt", "resume"]

/-- The distinct exceptions raised by `LLMService.extract_data`
(`llm_service.py`); all are `ValueError`s in the source, distinguished by
their message, plus the parse failure propagated from `parser.parse`. -/
inductive ExtractError where
  /-- `ValueError("No text extracted from OCR to send to LLM.")` -/
  | emptyInput : ExtractError
  /-- `ValueError(f"Unsupported document type: ...")` -/
  | unsupportedDocumentType : String → ExtractError
  /-- `ValueError("LLM returned empty output.")` -/
  | emptyModelOutput : ExtractError
  /-- an exception raised by `parser.parse(raw_output)` -/
  | parseError : ExtractError
deriving DecidableEq, Repr

/-- Behaviour of the external collaborators of `LLMService.extract_data`:
the language model (`self.llm.invoke`, mapping a formatted prompt to the
raw text of its response), the schema descriptor rendered by
`parser.get_format_instructions()` for each document type, and the
pydantic parse-and-dump step (`parser.parse(...).model_dump()`, `none`
standing for a parse exception). -/
structure LLMEnv where
  oracle : List Char → List Char
  formatInstructions : String → List Char
  parse : String → List Char → Option (List Char)

/-- Part of the prompt template of `llm_service.py` preceding the
`text` placeholder, per document type (unknown types are unreachable:
they are rejected before the prompt is built). -/
def tplHead (dt : String) : List Char :=
  if dt = "driving_license" then
    ("You are an expert at extracting structured data from driving license documents.\n\nExtract the following information from the provided text:\n- Name: Full name of the license holder\n- Date of Birth: Date of birth in YYYY-MM-DD format\n- License Number: License number/ID\n- Issuing State: State that issued the license\n- Expiry Date: Expiry date in YYYY-MM-DD format\n\nText from document:\n").data
  else if dt = "shop_receipt" then
    ("You are an expert at extracting structured data from shop receipts.\n\nExtract the following information from the provided text:\n- Merchant Name: Name of the merchant/store\n- Total Amount: Total amount of the purchase (numeric value)\n- Date of Purchase: Date of purchase in YYYY-MM-DD format\n- Items: List of items with name, quantity, and price\n- Payment Method: Payment method used\n\nText from document:\n").data
  else if dt = "resume" then
    ("You are an expert at extracting structured data from resumes/CVs.\n\nExtract the following information from the provided text:\n- Full Name: Full name of the person\n- Email: Email address\n- Phone Number: Phone number\n- Skills: List of skills mentioned\n- Work Experience: List of work experiences with company, role, and dates\n- Education: List of educational background with institution, degree, and graduation year\n\nText from document:\n").data
  else []

/-- Part of each prompt template between the `text` placeholder and the
`format_instructions` placeholder; identical in all three templates. -/
def tplMid : List Char :=
  "\n\nReturn the data in the following JSON format:\n".data

/-- Part of the prompt template following the `format_instructions`
placeholder, per document type. -/
def tplTail (dt : String) : List Char :=
  if dt = "driving_license" then
    ("\n\nIf any field cannot be found, use \"Not found\" as the value. Be precise and accurate.\nReturn ONLY the JSON object, with no extra text, explanation, or formatting.").data
  else if dt = "shop_receipt" then
    ("\n\nImportant notes:\n- For numeric fields (total_amount, price, quantity), if the value cannot be found, use 0.\n- For all other fields, use \"Not found\" if the value cannot be found.\n- For items, extract as many as you can identify\n- Quantity can be decimal (e.g., 2.5 lbs, 0.5 kg) for items sold by weight\n- Use the exact quantity as shown on the receipt, whether it's whole numbers or decimals\n- Price should be the price per unit/item\nReturn ONLY the JSON object, with no extra text, explanation, or formatting.").data
  else if dt = "resume" then
    ("\n\nImportant notes:\n- You MUST include ALL fields in the response, even if they are empty or not found\n- If any field cannot be found, use \"Not found\" as the value\n- For skills, work_experience, and education, use empty arrays [] if none are found\n- For graduation_year, use the actual year (e.g., 2020) if available, or the date range as a string (e.g., \"6/92-3/93\") if it's a range\n- Extract as many skills, work experiences, and education entries as possible\n- Be precise with dates and formatting\n- Always include the education, skills, and work_experience fields, even if they are empty arrays\nReturn ONLY the JSON object, with no extra text, explanation, or formatting.").data
  else []

/-- The formatted prompt produced by
`prompt.format_messages(text=text, format_instructions=...)`: the
template with the two placeholders substituted. -/
def buildPrompt (env : LLMEnv) (dt : String) (text : List Char) : List Char :=
  tplHead dt ++ text ++ tplMid ++ env.formatInstructions dt ++ tplTail dt

/-- `MAX_CHARS` in `LLMService.extract_data`. -/
def MAX_CHARS : Nat := 2000

/-- The truncation step of `extract_data`:
`if original_length > MAX_CHARS: text = text[:MAX_CHARS]`. -/
def pyTruncate (text : List Char) : List Char :=
  if text.length > MAX_CHARS then text.take MAX_CHARS else text

/-- `LLMService.extract_data(text, document_type)` of `llm_service.py`.
Returns the result (`Except` for raised exceptions) paired with the
trace of prompts sent to the external model, in call order, so that
properties about what reaches the model are statable.  The outer
`try/except` of the source logs and re-raises, so it does not change
the result.  Recursion mirrors the empty-output retry
`self.extract_data(text[:len(text)//2], document_type)`. -/
def extract_data (env : LLMEnv) (text : List Char) (dt : String) :
    Except ExtractError (List Char) × List (List Char) :=
  if isBlank text then
    (.error .emptyInput, [])
  else if dt ∈ knownDocumentTypes then
    let t := pyTruncate text
    let prompt := buildPrompt env dt t
    let raw := env.oracle prompt
    if isBlank raw then
      if t.length > 500 then
        let rec_result := extract_data env (t.take (t.length / 2)) dt
        (rec_result.1, prompt :: rec_result.2)
      else
        (.error .emptyModelOutput, [prompt])
    else
      match env.parse dt raw with
      | some d => (.ok d, [prompt])
      | none => (.error .parseError, [prompt])
  else
    (.error (.unsupportedDocumentType dt), [])
termination_by text.length
decreasing_by
  rename_i ht
  have ht2 : (pyTruncate text).length > 500 := ht
  simp only [pyTruncate, MAX_CHARS, List.length_take] at ht2 ⊢
  rcases Nat.lt_or_ge 2000 text.length with h2000 | h2000
  · rw [if_pos h2000] at ht2 ⊢
    simp only [List.length_take] at ht2 ⊢
    omega
  · rw [if_neg (by omega)] at ht2 ⊢
    omega

/-- Fuel-indexed variant of `extract_data` (result only, no prompt
trace), used to measure termination of the empty-output retry
recursion: `none` means the fuel ran out before the recursion finished,
so proving the result `isSome` for a computable amount of fuel is a
genuine termination statement about the source's unbounded recursion. -/
def extract_dataF (env : LLMEnv) :
    Nat → List Char → String → Option (Except ExtractError (List Char))
  | 0, _, _ => none
  | fuel + 1, text, dt =>
    if isBlank text then
      some (.error .emptyInput)
    else if dt ∈ knownDocumentTypes then
      let t := pyTruncate text
      let raw := env.oracle (buildPrompt env dt t)
      if isBlank raw then
        if t.length > 500 then
          extract_dataF env fuel (t.take (t.length / 2)) dt
        else
          some (.error .emptyModelOutput)
      else
        match env.parse dt raw with
        | some d => some (.ok d)
        | none => some (.error .parseError)
    else
      some (.error (.unsupportedDocumentType dt))

/-- Behaviour of the two services the `DocumentPipeline` composes:
`self.ocr_service.extract_text(file_path)` and
`self.llm_service.extract_data(text, document_type)`.  Each either
returns its value or raises; a raised exception is modelled as
`.error s` where `s` is the Python `str(e)` of the exception, which is
all the pipeline ever looks at. -/
structure PipelineEnv where
  extract_text : String → Except String (List Char)
  extract_data : List Char → String → Except String (List Char)

/-- The result dictionary assembled by
`DocumentPipeline.process_single_document`.  Keys that a given branch
of the source does not put into the dictionary are `none`. -/
structure DocumentRecord where
  file_path : String
  document_type : String
  extracted_text : Option (List Char)
  structured_data : Option (List Char)
  processing_status : String
  error : Option String
deriving DecidableEq, Repr

/-- `DocumentPipeline.process_single_document(file_path, document_type)`
of `pipeline.py`.  The whole body is wrapped in `try/except Exception`,
whose handler returns the failed record
`{file_path, document_type, error: str(e), processing_status: "failed"}`;
hence the Lean function is total and returns a record on every path. -/
def process_single_document (env : PipelineEnv)
    (file_path document_type : String) : DocumentRecord :=
  match env.extract_text file_path with
  | .error e =>
      { file_path := file_path, document_type := document_type,
        extracted_text := none, structured_data := none,
        processing_status := "failed", error := some e }
  | .ok extracted_text =>
      if isBlank extracted_text then
        { file_path := file_path, document_type := document_type,
          extracted_text := none, structured_data := none,
          processing_status := "failed",
          error := some "No text extracted from document" }
      else
        match env.extract_data extracted_text document_type with
        | .error e =>
            { file_path := file_path, document_type := document_type,
              extracted_text := none, structured_data := none,
              processing_status := "failed", error := some e }
        | .ok structured_data =>
            { file_path := file_path, document_type := document_type,
              extracted_text := some extracted_text,
              structured_data := some structured_data,
              processing_status := "success", error := none }

/-- `Config.SUPPORTED_IMAGE_FORMATS` of `config.py`. -/
def SUPPORTED_IMAGE_FORMATS : List String := [".jpg", ".jpeg", ".png"]

/-- `Config.SUPPORTED_PDF_FORMATS` of `config.py`. -/
def SUPPORTED_PDF_FORMATS : List String := [".pdf"]

/-- Whether a name begins with a dot (a hidden file). -/
def startsWithDot (name : List Char) : Bool :=
  match name with
  | '.' :: _ => true
  | _ => false

/-- Whether a directory entry is produced by
`directory.glob(f"*{ext}")` (POSIX semantics): `*` matches any run of
characters of the entry name, case-sensitively, so the pattern matches
exactly the names ending in `ext`; a pattern starting with `*` does not
match hidden names beginning with a dot. -/
def globMatch (ext name : String) : Bool :=
  ext.data.isSuffixOf name.data && !startsWithDot name.data

/-- The `supported_files` list built by
`DocumentPipeline.process_directory`: for each configured extension in
turn, extend the list with the directory entries matching
`*{ext}`. -/
def supported_files (entries : List String) : List String :=
  (SUPPORTED_IMAGE_FORMATS ++ SUPPORTED_PDF_FORMATS).foldl
    (fun acc ext => acc ++ entries.filter (fun name => globMatch ext name)) []

/-- `DocumentPipeline.process_directory(directory_path, document_type)`
of `pipeline.py`.  The directory is modelled by whether it exists plus
its list of entry names.  The `ThreadPoolExecutor` fan-out with
`as_completed` is abstracted to a map in submission order: the real
results list is a permutation of this one (completion order), so
length and membership statements proved here hold for every completion
order.  Persistence (`_save_result`) has no effect on the returned
list and is omitted. -/
def process_directory (env : PipelineEnv) (dirExists : Bool)
    (entries : List String) (document_type : String) :
    Except String (List DocumentRecord) :=
  if !dirExists then
    .error "Directory not found"
  else
    .ok ((supported_files entries).map
      (fun fp => process_single_document env fp document_type))

/-- Loop body state of `OCRService.extract_text_from_pdf`: given the
per-page OCR outcomes (the behaviour of
`extract_text_from_image(temp_image_path)` on each rendered page),
return the overall result together with the list of page indices whose
temporary image file `temp_page_{i}.png` is still on disk when the
function returns.  Each iteration saves the page's temp file, runs OCR
(which may raise), appends the page text, then removes the temp file;
a raised OCR error propagates out of the loop at once (the `except`
clause only logs and re-raises). -/
def extract_text_from_pdf_go (pages : List (Except String (List Char)))
    (i : Nat) (all_text : List (List Char)) (temps : List Nat) :
    Except String (List Char) × List Nat :=
  match pages with
  | [] => (.ok (List.intercalate ['\n'] all_text), temps)
  | p :: rest =>
    let temps1 := temps ++ [i]
    match p with
    | .ok page_text =>
        extract_text_from_pdf_go rest (i + 1) (all_text ++ [page_text])
          (temps1.erase i)
    | .error e => (.error e, temps1)

/-- `OCRService.extract_text_from_pdf(pdf_path)` of `ocr_service.py`,
with the PDF abstracted to its list of per-page OCR outcomes. -/
def extract_text_from_pdf (pages : List (Except String (List Char))) :
    Except String (List Char) × List Nat :=
  extract_text_from_pdf_go pages 0 [] []

/-- The extension of a path as computed by `os.path.splitext(p)[1]`:
the part of the basename from its last dot on, except that a basename
whose every character before that dot is a dot (e.g. `.bashrc`) has no
extension. -/
def splitextExt (p : String) : String :=
  let b := (p.data.reverse.takeWhile (fun c => c ≠ '/')).reverse
  let tail := b.reverse.takeWhile (fun c => c ≠ '.')
  if tail.length = b.length then ""
  else if (b.take (b.length - tail.length - 1)).all (fun c => c = '.') then ""
  else ⟨'.' :: tail.reverse⟩

/-- The dispatch outcome of `OCRService.extract_text(file_path)`. -/
inductive OcrRoute where
  /-- the `extract_text_from_image` branch -/
  | image : OcrRoute
  /-- the `extract_text_from_pdf` branch -/
  | pdf : OcrRoute
  /-- `ValueError(f"Unsupported file format: {file_ext}")` -/
  | unsupported : String → OcrRoute
deriving DecidableEq, Repr

/-- The format dispatch of `OCRService.extract_text` (`ocr_service.py`):
`file_ext = os.path.splitext(file_path)[1].lower()`, then membership in
the configured format lists. -/
def extract_text_route (file_path : String) : OcrRoute :=
  let file_ext : String := ⟨(splitextExt file_path).data.map Char.toLower⟩
  if file_ext ∈ SUPPORTED_IMAGE_FORMATS then .image
  else if file_ext ∈ SUPPORTED_PDF_FORMATS then .pdf
  else .unsupported file_ext

/-- A language-model behaviour that answers every prompt with the empty
response (and whose parser never succeeds); used to instantiate the
retry theorems at concrete inputs. -/
def blankLLM : LLMEnv :=
  { oracle := fun _ => [], formatInstructions := fun _ => [],
    parse := fun _ _ => none }

/-- A pipeline behaviour in which OCR succeeds with fixed non-blank
text and the structured-extraction stage raises; used to instantiate
the pipeline theorems at concrete inputs. -/
def ocrOkLlmFails : PipelineEnv :=
  { extract_text := fun _ => .ok "Some text".data,
    extract_data := fun _ _ => .error "LLM returned empty output." }

lemma pyTruncate_eq_take (text : List Char) :
    pyTruncate text = text.take 2000 := by
  rw [pyTruncate]
  split
  · rfl
  · next h => exact (List.take_of_length_le (Nat.le_of_not_lt h)).symm

lemma pyTruncate_length_le (text : List Char) :
    (pyTruncate text).length ≤ text.length := by
  rw [pyTruncate_eq_take, List.length_take]
  omega

lemma psd_status_cases (env : PipelineEnv) (fp dt : String) :
    (process_single_document env fp dt).processing_status = "success" ∨
      (process_single_document env fp dt).processing_status = "failed" := by
  unfold process_single_document
  rcases env.extract_text fp with e | t
  · right; rfl
  · by_cases hb : isBlank t
    · right; simp [hb]
    · rcases hd : env.extract_data t dt with e | sd
      · right; simp [hb, hd]
      · left; simp [hb, hd]

lemma extract_data_blank_step (env : LLMEnv) (text : List Char) (dt : String)
    (h1 : isBlank text = false) (h2 : dt ∈ knownDocumentTypes)
    (hb : isBlank (env.oracle (buildPrompt env dt (pyTruncate text))) = true) :
    (extract_data env text dt).1 =
      if 500 < (pyTruncate text).length then
        (extract_data env ((pyTruncate text).take ((pyTruncate text).length / 2)) dt).1
      else .error .emptyModelOutput := by
  rw [extract_data]
  simp only [h1, Bool.false_eq_true, if_false, h2, if_true, hb]
  split <;> rfl

lemma extract_data_prompt_head (env : LLMEnv) (text : List Char) (dt : String)
    (h1 : isBlank text = false) (h2 : dt ∈ knownDocumentTypes) :
    (extract_data env text dt).2.head? =
      some (buildPrompt env dt (pyTruncate text)) := by
  rw [extract_data]
  simp only [h1, Bool.false_eq_true, if_false, h2, if_true]
  by_cases hb : isBlank (env.oracle (buildPrompt env dt (pyTruncate text))) = true
  · simp only [hb, if_true]
    split <;> rfl
  · simp only [hb, Bool.not_eq_true, if_false]
    rcases env.parse dt (env.oracle (buildPrompt env dt (pyTruncate text))) with _ | d <;> simp

lemma extract_dataF_isSome (env : LLMEnv) :
    ∀ (fuel : Nat) (text : List Char) (dt : String), text.length < fuel →
      (extract_dataF env fuel text dt).isSome = true := by
  intro fuel
  induction fuel with
  | zero => intro text dt h; exact absurd h (Nat.not_lt_zero _)
  | succ n ih =>
    intro text dt h
    rw [extract_dataF]
    by_cases h1 : isBlank text = true
    · simp [h1]
    · simp only [h1, if_false]
      by_cases h2 : dt ∈ knownDocumentTypes
      · simp only [h2, if_true]
        by_cases hb : isBlank (env.oracle (buildPrompt env dt (pyTruncate text))) = true
        · simp only [hb, if_true]
          by_cases hl : (pyTruncate text).length > 500
          · simp only [hl, if_true]
            apply ih
            have hle := pyTruncate_length_le text
            rw [List.length_take]
            omega
          · simp [hl]
        · simp only [hb, if_false]
          rcases env.parse dt (env.oracle (buildPrompt env dt (pyTruncate text))) with _ | d <;> simp
      · simp [h2]

lemma extract_dataF_small (env : LLMEnv) (fuel : Nat) (text : List Char)
    (dt : String) (hblank : ∀ p, isBlank (env.oracle p) = true)
    (hfuel : text.length < fuel) (h1 : isBlank text = false)
    (h2 : dt ∈ knownDocumentTypes) (hle : text.length ≤ 500) :
    extract_dataF env fuel text dt = some (.error .emptyModelOutput) := by
  cases fuel with
  | zero => exact absurd hfuel (Nat.not_lt_zero _)
  | succ n =>
    have ht : pyTruncate text = text := by
      rw [pyTruncate]
      split
      · next hgt => exact absurd hgt (by simp [MAX_CHARS]; omega)
      · rfl
    rw [extract_dataF]
    simp only [h1, Bool.false_eq_true, if_false, h2, if_true, ht,
      hblank (buildPrompt env dt text)]
    simp only [show ¬ text.length > 500 by omega, if_false]

/-- C5: every `DocumentRecord` produced by `process_single_document`
has `processing_status` either `"success"` or `"failed"`, exactly one
of structured data and error present, and error present exactly when
the status is failed — so no record ever carries partial structured
data together with an error. -/
theorem record_invariant (env : PipelineEnv) (fp dt : String) :
    ((process_single_document env fp dt).processing_status = "success" ∨
      (process_single_document env fp dt).processing_status = "failed") ∧
    ((process_single_document env fp dt).structured_data.isSome ↔
      (process_single_document env fp dt).error = none) ∧
    ((process_single_document env fp dt).error.isSome ↔
      (process_single_document env fp dt).processing_status = "failed") := by
  have hne : ("success" : String) ≠ "failed" := by decide
  refine ⟨psd_status_cases env fp dt, ?_, ?_⟩ <;>
  · unfold process_single_document
    rcases env.extract_text fp with e | t
    · simp
    · by_cases hb : isBlank t
      · simp [hb]
      · rcases hd : env.extract_data t dt with e | sd <;> simp [hb, hd, hne]

/-- C1: with an existing directory, `process_directory` returns one
result record per matched file (exactly N records for N matched
files), each record being `process_single_document` applied to its own
file alone — so a failure in any subset of the documents leaves the
other records intact — and every record is independently marked
success or failed (`process_single_document` converts every
per-document exception into a returned failed record and never
raises, being a total function into `DocumentRecord`). -/
theorem batch_isolation (env : PipelineEnv) (entries : List String) (dt : String) :
    process_directory env true entries dt =
      .ok ((supported_files entries).map (fun fp => process_single_document env fp dt)) ∧
    ((supported_files entries).map (fun fp => process_single_document env fp dt)).length =
      (supported_files entries).length ∧
    (∀ r ∈ (supported_files entries).map (fun fp => process_single_document env fp dt),
      r.processing_status = "success" ∨ r.processing_status = "failed") := by
  refine ⟨rfl, by simp, ?_⟩
  intro r hr
  obtain ⟨fp, _, rfl⟩ := List.mem_map.1 hr
  exact psd_status_cases env fp dt

/-- C1 witness: a concrete one-file batch whose extraction stage
raises still yields exactly one record, marked success or failed. -/
theorem batch_isolation_witness :
    process_directory ocrOkLlmFails true ["a.jpg"] "resume" =
      .ok [process_single_document ocrOkLlmFails "a.jpg" "resume"] ∧
    ((process_single_document ocrOkLlmFails "a.jpg" "resume").processing_status = "success" ∨
      (process_single_document ocrOkLlmFails "a.jpg" "resume").processing_status = "failed") :=
  ⟨(batch_isolation ocrOkLlmFails ["a.jpg"] "resume").1,
   (batch_isolation ocrOkLlmFails ["a.jpg"] "resume").2.2 _ (by decide)⟩

/-- C2: for every non-blank input accepted by the validation, the
first prompt `extract_data` sends to the model embeds exactly the
first 2000 characters of the input, verbatim, between the fixed
template parts; when the input has at most 2000 characters it is
embedded unmodified. -/
theorem truncation_policy (env : LLMEnv) (text : List Char) (dt : String)
    (h1 : isBlank text = false) (h2 : dt ∈ knownDocumentTypes) :
    (extract_data env text dt).2.head? =
      some (tplHead dt ++ text.take 2000 ++ tplMid ++
        env.formatInstructions dt ++ tplTail dt) ∧
    (text.length ≤ 2000 →
      (extract_data env text dt).2.head? =
        some (tplHead dt ++ text ++ tplMid ++
          env.formatInstructions dt ++ tplTail dt)) := by
  have h := extract_data_prompt_head env text dt h1 h2
  rw [pyTruncate_eq_take] at h
  refine ⟨h, fun hle => ?_⟩
  rw [List.take_of_length_le hle] at h
  exact h

/-- C2 witness: the truncation statement instantiated on a concrete
short input. -/
theorem truncation_policy_witness :
    (extract_data blankLLM "hello".data "driving_license").2.head? =
      some (tplHead "driving_license" ++ "hello".data.take 2000 ++ tplMid ++
        blankLLM.formatInstructions "driving_license" ++ tplTail "driving_license") :=
  (truncation_policy blankLLM "hello".data "driving_license" (by decide) (by decide)).1

/-- C3: when the model answers a validated input with a blank
response, `extract_data` retries the whole extraction on the first
half of the (possibly already truncated) text exactly when that text
is longer than 500 characters, and otherwise fails with the
empty-model-output error. -/
theorem empty_output_retry (env : LLMEnv) (text : List Char) (dt : String)
    (h1 : isBlank text = false) (h2 : dt ∈ knownDocumentTypes)
    (hb : isBlank (env.oracle (buildPrompt env dt (pyTruncate text))) = true) :
    (extract_data env text dt).1 =
      if 500 < (pyTruncate text).length then
        (extract_data env ((pyTruncate text).take ((pyTruncate text).length / 2)) dt).1
      else .error .emptyModelOutput :=
  extract_data_blank_step env text dt h1 h2 hb

/-- C3 witness: the retry statement instantiated on a concrete
501-character input and an always-blank model. -/
theorem empty_output_retry_witness :
    (extract_data blankLLM (List.replicate 501 'a') "resume").1 =
      if 500 < (pyTruncate (List.replicate 501 'a')).length then
        (extract_data blankLLM ((pyTruncate (List.replicate 501 'a')).take
          ((pyTruncate (List.replicate 501 'a')).length / 2)) "resume").1
      else .error .emptyModelOutput :=
  empty_output_retry blankLLM (List.replicate 501 'a') "resume"
    (by decide) (by decide) (by decide)

/-- C4: against a model that always returns a blank response, the
empty-output retry recursion terminates for every initial text: with
any fuel bound exceeding the text length the fueled computation
completes (so the recursion never loops indefinitely, including at
input lengths at most 1), and once a validated input is at most 500
characters long it fails with the empty-model-output error. -/
theorem retry_termination (env : LLMEnv)
    (hblank : ∀ p, isBlank (env.oracle p) = true)
    (fuel : Nat) (text : List Char) (dt : String) (hfuel : text.length < fuel) :
    (extract_dataF env fuel text dt).isSome = true ∧
    (isBlank text = false → dt ∈ knownDocumentTypes → text.length ≤ 500 →
      extract_dataF env fuel text dt = some (.error .emptyModelOutput)) :=
  ⟨extract_dataF_isSome env fuel text dt hfuel,
   fun h1 h2 hle => extract_dataF_small env fuel text dt hblank hfuel h1 h2 hle⟩

/-- C4 witness: a one-character input against an always-blank model
terminates at once with the empty-model-output error. -/
theorem retry_termination_witness :
    extract_dataF blankLLM 2 ['a'] "resume" = some (.error .emptyModelOutput) :=
  (retry_termination blankLLM (fun _ => rfl) 2 ['a'] "resume" (by decide)).2
    (by decide) (by decide) (by decide)

/-- C6 counterexample: a document whose OCR succeeds with non-empty
text and whose structured-extraction stage raises produces a failed
record with NO `extracted_text` field, contrary to the claim that the
OCR text is retained on later-stage failure. -/
theorem extracted_text_lost :
    ocrOkLlmFails.extract_text "doc.jpg" = .ok "Some text".data ∧
    isBlank "Some text".data = false ∧
    (process_single_document ocrOkLlmFails "doc.jpg" "resume").processing_status = "failed" ∧
    (process_single_document ocrOkLlmFails "doc.jpg" "resume").extracted_text = none := by
  refine ⟨rfl, by decide, ?_, ?_⟩ <;> decide

/-- C6 amended: every failed record returned by
`process_single_document` — whether the failure happened at the OCR
stage or at the structured-extraction stage — has `extracted_text`
absent; the field is only present on success. -/
theorem failed_record_has_no_extracted_text (env : PipelineEnv) (fp dt : String)
    (h : (process_single_document env fp dt).processing_status = "failed") :
    (process_single_document env fp dt).extracted_text = none := by
  revert h
  unfold process_single_document
  rcases env.extract_text fp with e | t
  · intro _; rfl
  · by_cases hb : isBlank t
    · simp [hb]
    · rcases hd : env.extract_data t dt with e | sd
      · simp [hb, hd]
      · simp only [hb, Bool.false_eq_true, if_false, hd]
        intro h
        exact absurd h (by decide)

/-- C6 amended witness: the amended statement instantiated on the
concrete extraction-stage failure. -/
theorem failed_record_has_no_extracted_text_witness :
    (process_single_document ocrOkLlmFails "doc.jpg" "resume").extracted_text = none :=
  failed_record_has_no_extracted_text ocrOkLlmFails "doc.jpg" "resume" (by decide)

/-- C7 counterexample: on empty input text with an unknown document
type, `extract_data` fails with the empty-input error, not with the
unsupported-document-type error — the empty-text check runs first. -/
theorem unknown_tag_blank_text :
    (extract_data blankLLM [] "invalid").1 = .error .emptyInput ∧
    ExtractError.emptyInput ≠ ExtractError.unsupportedDocumentType "invalid" := by
  have h : extract_data blankLLM [] "invalid" = (.error .emptyInput, []) := by
    rw [extract_data]; rfl
  exact ⟨by rw [h], by decide⟩

/-- C7 amended: for every input text that is non-empty after trimming
whitespace, an unknown document type fails with the
unsupported-document-type error before any external model call (the
prompt trace is empty); when the text is blank the empty-text check
fires first instead. -/
theorem unknown_tag_validation (env : LLMEnv) (text : List Char) (dt : String)
    (h1 : isBlank text = false) (h2 : dt ∉ knownDocumentTypes) :
    extract_data env text dt = (.error (.unsupportedDocumentType dt), []) := by
  rw [extract_data]
  simp [h1, h2]

/-- C7 amended witness: the amended statement instantiated on concrete
non-blank text and an unknown tag. -/
theorem unknown_tag_validation_witness :
    extract_data blankLLM "hello".data "invalid" =
      (.error (.unsupportedDocumentType "invalid"), []) :=
  unknown_tag_validation blankLLM "hello".data "invalid" (by decide) (by decide)

/-- C8: evaluation of `extract_text_from_pdf` at the failing input — a
PDF whose single page's OCR call raises — shows the page's temporary
image file (index 0) still present when the error propagates, while a
fully successful run deletes every temporary file.  The source has no
`try/finally` around the per-page OCR call, so cleanup is skipped on
error, contradicting the claimed guaranteed per-page deletion. -/
theorem pdf_temp_file_leak :
    extract_text_from_pdf [.error "Google Vision API error: boom"] =
      (.error "Google Vision API error: boom", [0]) ∧
    extract_text_from_pdf [.ok "page one".data] = (.ok "page one".data, []) :=
  ⟨rfl, rfl⟩

/-- C9: when the empty-output retry halves a validated input and the
resulting first half is whitespace-only, the recursive call fails with
the empty-input error (the recursion re-runs the empty-text
validation), not with the empty-model-output error. -/
theorem halved_blank_empty_input (env : LLMEnv) (text : List Char) (dt : String)
    (h1 : isBlank text = false) (h2 : dt ∈ knownDocumentTypes)
    (hb : isBlank (env.oracle (buildPrompt env dt (pyTruncate text))) = true)
    (hlen : 500 < (pyTruncate text).length)
    (hhalf : isBlank ((pyTruncate text).take ((pyTruncate text).length / 2)) = true) :
    (extract_data env text dt).1 = .error .emptyInput := by
  rw [extract_data_blank_step env text dt h1 h2 hb, if_pos hlen, extract_data]
  simp [hhalf]

set_option maxRecDepth 4000 in
/-- C9 witness: 501 spaces followed by one letter pass validation,
retry on a blank model response, and fail with the empty-input error
because the halved text is whitespace-only. -/
theorem halved_blank_empty_input_witness :
    (extract_data blankLLM (List.replicate 501 ' ' ++ ['a']) "shop_receipt").1 =
      .error .emptyInput :=
  halved_blank_empty_input blankLLM (List.replicate 501 ' ' ++ ['a']) "shop_receipt"
    (by decide) (by decide) (by decide) (by decide) (by decide)

/-- C10: directory processing only enumerates names ending,
case-sensitively, in one of the configured lowercase extensions — so
`photo.JPG` is silently skipped by `process_directory` — while
`extract_text` lowercases the extension before checking and therefore
routes the same file to the image branch. -/
theorem extension_case_mismatch :
    (∀ (entries : List String) (name : String), name ∈ supported_files entries →
      ∃ ext, ext ∈ SUPPORTED_IMAGE_FORMATS ++ SUPPORTED_PDF_FORMATS ∧
        ext.data.isSuffixOf name.data = true) ∧
    supported_files ["photo.JPG"] = [] ∧
    extract_text_route "photo.JPG" = .image := by
  refine ⟨?_, by decide, by decide⟩
  intro entries name hmem
  have hmem2 : name ∈
      ((([] ++ entries.filter (fun n => globMatch ".jpg" n)) ++
        entries.filter (fun n => globMatch ".jpeg" n)) ++
        entries.filter (fun n => globMatch ".png" n)) ++
        entries.filter (fun n => globMatch ".pdf" n) := hmem
  simp only [List.nil_append, List.mem_append, List.mem_filter,
    globMatch, Bool.and_eq_true] at hmem2
  rcases hmem2 with (((⟨-, h, -⟩ | ⟨-, h, -⟩) | ⟨-, h, -⟩) | ⟨-, h, -⟩)
  · exact ⟨".jpg", by decide, h⟩
  · exact ⟨".jpeg", by decide, h⟩
  · exact ⟨".png", by decide, h⟩
  · exact ⟨".pdf", by decide, h⟩

/-- C10 witness: a lowercase-extension file is enumerated and its
extension is in the allow-list. -/
theorem extension_case_mismatch_witness :
    ∃ ext, ext ∈ SUPPORTED_IMAGE_FORMATS ++ SUPPORTED_PDF_FORMATS ∧
      ext.data.isSuffixOf "a.jpg".data = true :=
  extension_case_mismatch.1 ["a.jpg"] "a.jpg" (by decide)

end Extractify
